import Mathlib

/-!
Verification of the controller state snapshot model of `abb_librws`
(`include/abb_librws/rws_info.h`).

The header declares the data model only: three `enum class` vocabularies,
plain-struct records (`MechanicalUnitStaticInfo`, `MechanicalUnitDynamicInfo`,
`SystemInfo`, `StaticInfo`), records with user-declared constructors
(`RobotWareOptionInfo`, `RAPIDModuleInfo`, `RAPIDTaskInfo`), and the alias
`IOSignalInfo = std::map<std::string, std::variant<bool, float>>`.

The embedding below translates these declarations together with the C++
semantics they entail (aggregate value-initialization, `std::variant`
discriminated access, `std::map` ordered keying and `operator[]` insertion).
The analog payload of a signal (`float` in the source) is modelled as an exact
rational number: the source only stores and retrieves the payload, it never
computes with it, so the carrier only has to be a type with decidable
equality.  The synchronization-layer operations that the spec describes but
whose code is not under `src/` (string-to-enum parsing, signal-map
construction, aggregate snapshot assembly) are modelled from the spec and
marked as such.
-/

namespace abb.rws

/-- Execution state of a RAPID task (`enum class RAPIDTaskExecutionState`). -/
inductive RAPIDTaskExecutionState where
  | UNKNOWN
  | READY
  | STOPPED
  | STARTED
  | UNINITIALIZED
deriving DecidableEq, Repr

/-- Type of a mechanical unit (`enum class MechanicalUnitType`). -/
inductive MechanicalUnitType where
  | NONE
  | TCP_ROBOT
  | ROBOT
  | SINGLE
  | UNDEFINED
deriving DecidableEq, Repr

/-- Mode of a mechanical unit (`enum class MechanicalUnitMode`). -/
inductive MechanicalUnitMode where
  | UNKNOWN_MODE
  | ACTIVATED
  | DEACTIVATED
deriving DecidableEq, Repr

/-- Modelled from the spec: `coordinate.h` is not under `src/`; the spec
describes a `Coordinate`-backed coordinate-system kind only as one of the
closed enumerated state vocabularies, without listing its members.  It is
modelled as a closed enumeration whose first member is the one produced by
C++ value-initialization (enumerator value 0). -/
inductive Coordinate where
  | FIRST_ENUMERATOR
  | OTHER_ENUMERATOR
deriving DecidableEq, Repr

/-- `struct MechanicalUnitStaticInfo` — static information of a mechanical
unit.  The C++ `int` fields are modelled as `Int`; no arithmetic is performed
on them, so overflow never enters. -/
structure MechanicalUnitStaticInfo where
  type : MechanicalUnitType
  task_name : String
  axes : Int
  axes_total : Int
  is_integrated_unit : String
  has_integrated_unit : String
deriving DecidableEq, Repr

/-- `MechanicalUnitStaticInfo` has no user-declared constructor, so C++
value-initialization `MechanicalUnitStaticInfo{}` is available and
value-initializes every member: enum to enumerator 0 (`NONE`), strings to
empty, ints to 0. -/
def MechanicalUnitStaticInfo.valueInit : MechanicalUnitStaticInfo :=
  { type := MechanicalUnitType.NONE
    task_name := ""
    axes := 0
    axes_total := 0
    is_integrated_unit := ""
    has_integrated_unit := "" }

/-- `struct MechanicalUnitDynamicInfo` — dynamic information of a mechanical
unit. -/
structure MechanicalUnitDynamicInfo where
  tool_name : String
  wobj_name : String
  payload_name : String
  total_payload_name : String
  status : String
  mode : MechanicalUnitMode
  jog_mode : String
  coord_system : Coordinate
deriving DecidableEq, Repr

/-- `MechanicalUnitDynamicInfo` has no user-declared constructor; C++
value-initialization `MechanicalUnitDynamicInfo{}` yields empty strings and
enumerator-0 members. -/
def MechanicalUnitDynamicInfo.valueInit : MechanicalUnitDynamicInfo :=
  { tool_name := ""
    wobj_name := ""
    payload_name := ""
    total_payload_name := ""
    status := ""
    mode := MechanicalUnitMode.UNKNOWN_MODE
    jog_mode := ""
    coord_system := Coordinate.FIRST_ENUMERATOR }

/-- `struct SystemInfo` — system information of the robot controller. -/
structure SystemInfo where
  robot_ware_version : String
  system_name : String
  system_type : String
  system_options : List String
deriving DecidableEq, Repr

/-- `SystemInfo` has no user-declared constructor; C++ value-initialization
`SystemInfo{}` yields empty strings and an empty option vector. -/
def SystemInfo.valueInit : SystemInfo :=
  { robot_ware_version := ""
    system_name := ""
    system_type := ""
    system_options := [] }

/-- `struct RobotWareOptionInfo` — its only constructor takes both fields. -/
structure RobotWareOptionInfo where
  name : String
  description : String
deriving DecidableEq, Repr

/-- `struct RAPIDModuleInfo` — its only constructor takes both fields. -/
structure RAPIDModuleInfo where
  name : String
  type : String
deriving DecidableEq, Repr

/-- `struct RAPIDTaskInfo` — its only constructor takes all four fields. -/
structure RAPIDTaskInfo where
  name : String
  is_motion_task : Bool
  is_active : Bool
  execution_state : RAPIDTaskExecutionState
deriving DecidableEq, Repr

/-- `struct StaticInfo` — RAPID task list plus system information. -/
structure StaticInfo where
  rapid_tasks : List RAPIDTaskInfo
  system_info : SystemInfo
deriving DecidableEq, Repr

/-- The value stored for one I/O signal: `std::variant<bool, float>`.  The
`float` payload is modelled as an exact rational (see the file header). -/
inductive SignalValue where
  | vbool : Bool → SignalValue
  | vfloat : Rat → SignalValue
deriving DecidableEq, Repr

/-- C++ value-initialization of `std::variant<bool, float>`: the variant
holds its first alternative (`bool`), itself value-initialized to `false`. -/
def SignalValue.valueInit : SignalValue :=
  SignalValue.vbool false

/-- Boundary error vocabulary of the spec's §7 relevant to signal reads. -/
inductive RWSError where
  | TypeMismatch
deriving DecidableEq, Repr

/-- Reading a signal value with the boolean (digital) discriminant:
`std::get<bool>` on the stored `std::variant<bool, float>`, which throws
`bad_variant_access` — the spec's `TypeMismatch` — when the variant holds the
other alternative. -/
def SignalValue.getDigital : SignalValue → Except RWSError Bool
  | SignalValue.vbool b => Except.ok b
  | SignalValue.vfloat _ => Except.error RWSError.TypeMismatch

/-- Reading a signal value with the floating-point (analog) discriminant:
`std::get<float>` on the stored variant. -/
def SignalValue.getAnalog : SignalValue → Except RWSError Rat
  | SignalValue.vbool _ => Except.error RWSError.TypeMismatch
  | SignalValue.vfloat x => Except.ok x

end abb.rws

namespace abb.rws

/-! ### The signal map

`IOSignalInfo = std::map<std::string, std::variant<bool, float>>`.
`std::map<std::string, V>` keeps its entries in strictly increasing key
order under `std::less<std::string>`, which compares `char` sequences
lexicographically.  UTF-8 byte order coincides with code-point order, so the
comparison is modelled as lexicographic order on the code points of the key.
The map itself is modelled as the association list of its entries in
iteration (ascending-key) order. -/

/-- Lexicographic comparison of character sequences, as `std::less` performs
on the stored bytes of a `std::string`. -/
def charListLt : List Char → List Char → Bool
  | [], [] => false
  | [], _ :: _ => true
  | _ :: _, [] => false
  | a :: as, b :: bs =>
    if a.toNat < b.toNat then true
    else if b.toNat < a.toNat then false
    else charListLt as bs

/-- Key comparison of `IOSignalInfo`: `std::less<std::string>`. -/
def strLt (a b : String) : Bool :=
  charListLt a.data b.data

/-- The entries of an `IOSignalInfo`, in the map's iteration order. -/
abbrev IOSignalInfo : Type :=
  List (String × SignalValue)

/-- `m[k] = v` on a `std::map`: place `v` at key `k`, overwriting the entry
with an equivalent key if present, otherwise inserting at the ordered
position. -/
def mapStore (k : String) (v : SignalValue) : IOSignalInfo → IOSignalInfo
  | [] => [(k, v)]
  | (k', v') :: rest =>
    if strLt k k' then (k, v) :: (k', v') :: rest
    else if k = k' then (k, v) :: rest
    else (k', v') :: mapStore k v rest

/-- `std::map::find` as an optional value: the value at key `k`, if any. -/
def mapLookup (k : String) : IOSignalInfo → Option SignalValue
  | [] => none
  | (k', v) :: rest => if k = k' then some v else mapLookup k rest

/-- `std::map::operator[]`: returns the value at `k`; on a missing key it
first inserts a value-initialized `std::variant<bool, float>` (a digital
`false`).  The result is the returned value paired with the possibly grown
map. -/
def mapSubscript (m : IOSignalInfo) (k : String) : SignalValue × IOSignalInfo :=
  match mapLookup k m with
  | some v => (v, m)
  | none => (SignalValue.valueInit, mapStore k SignalValue.valueInit m)

/-- Modelled from the spec: the `IOSignalInfo` construction function of the
synchronization layer is not under `src/`.  Per §6 it turns the sequence of
(signal name, value) pairs of one controller response into the mapping by
storing each pair in order, so that a repeated name keeps the value of its
last occurrence. -/
def buildIOSignalInfo (entries : List (String × SignalValue)) : IOSignalInfo :=
  entries.foldl (fun m p => mapStore p.1 p.2 m) []

/-- Specification-side description of the built map's content: the value of
the last occurrence of key `k` in the input sequence, if `k` occurs. -/
def lastValue (k : String) : List (String × SignalValue) → Option SignalValue
  | [] => none
  | p :: rest =>
    match lastValue k rest with
    | some v => some v
    | none => if p.1 = k then some p.2 else none

/-- The strict key order of the map, on entries. -/
def entryLt (p q : String × SignalValue) : Prop :=
  strLt p.1 q.1 = true

theorem char_toNat_inj {a b : Char} (h : a.toNat = b.toNat) : a = b :=
  Char.ext (UInt32.toNat.inj h)

theorem charListLt_irrefl (l : List Char) : charListLt l l = false := by
  induction l with
  | nil => rfl
  | cons a as ih => simp [charListLt, ih]

theorem charListLt_trichotomy :
    ∀ {x y : List Char}, x ≠ y → charListLt x y = true ∨ charListLt y x = true := by
  intro x
  induction x with
  | nil =>
    intro y h
    cases y with
    | nil => exact absurd rfl h
    | cons b bs => exact Or.inl rfl
  | cons a as ih =>
    intro y h
    cases y with
    | nil => exact Or.inr rfl
    | cons b bs =>
      rcases Nat.lt_trichotomy a.toNat b.toNat with hab | hab | hab
      · left
        simp [charListLt, hab]
      · obtain rfl : a = b := char_toNat_inj hab
        have hne : as ≠ bs := by
          intro he
          exact h (by rw [he])
        rcases ih hne with h1 | h1
        · left
          simp [charListLt, h1]
        · right
          simp [charListLt, h1]
      · right
        simp [charListLt, hab]

theorem charListLt_trans :
    ∀ {x y z : List Char},
      charListLt x y = true → charListLt y z = true → charListLt x z = true := by
  intro x
  induction x with
  | nil =>
    intro y z hxy hyz
    cases y with
    | nil => exact absurd hxy (by simp [charListLt])
    | cons b bs =>
      cases z with
      | nil => exact absurd hyz (by simp [charListLt])
      | cons c cs => rfl
  | cons a as ih =>
    intro y z hxy hyz
    cases y with
    | nil => exact absurd hxy (by simp [charListLt])
    | cons b bs =>
      cases z with
      | nil => exact absurd hyz (by simp [charListLt])
      | cons c cs =>
        simp only [charListLt] at hxy hyz ⊢
        rcases Nat.lt_trichotomy a.toNat b.toNat with h1 | h1 | h1
        · rcases Nat.lt_trichotomy b.toNat c.toNat with h2 | h2 | h2
          · simp [Nat.lt_trans h1 h2]
          · obtain rfl : b = c := char_toNat_inj h2
            simp [h1]
          · rw [if_neg (Nat.lt_asymm h2), if_pos h2] at hyz
            exact absurd hyz (by simp)
        · obtain rfl : a = b := char_toNat_inj h1
          rw [if_neg (Nat.lt_irrefl _), if_neg (Nat.lt_irrefl _)] at hxy
          rcases Nat.lt_trichotomy a.toNat c.toNat with h2 | h2 | h2
          · simp [h2]
          · obtain rfl : a = c := char_toNat_inj h2
            rw [if_neg (Nat.lt_irrefl _), if_neg (Nat.lt_irrefl _)] at hyz ⊢
            exact ih hxy hyz
          · rw [if_neg (Nat.lt_asymm h2), if_pos h2] at hyz
            exact absurd hyz (by simp)
        · rw [if_neg (Nat.lt_asymm h1), if_pos h1] at hxy
          exact absurd hxy (by simp)

theorem strLt_irrefl (a : String) : strLt a a = false :=
  charListLt_irrefl a.data

theorem strLt_trichotomy {a b : String} (h : a ≠ b) :
    strLt a b = true ∨ strLt b a = true :=
  charListLt_trichotomy (fun he => h (String.ext he))

theorem strLt_trans {a b c : String}
    (h1 : strLt a b = true) (h2 : strLt b c = true) : strLt a c = true :=
  charListLt_trans h1 h2

theorem strLt_ne {a b : String} (h : strLt a b = true) : a ≠ b := by
  rintro rfl
  rw [strLt_irrefl] at h
  exact absurd h (by simp)

theorem mapLookup_mapStore (k' k : String) (v : SignalValue) (m : IOSignalInfo) :
    mapLookup k' (mapStore k v m) = if k' = k then some v else mapLookup k' m := by
  induction m with
  | nil => simp [mapStore, mapLookup]
  | cons p rest ih =>
    obtain ⟨a, w⟩ := p
    by_cases h1 : strLt k a = true
    · simp only [mapStore, if_pos h1, mapLookup]
    · by_cases h2 : k = a
      · subst h2
        simp only [mapStore, if_neg h1, if_pos rfl, mapLookup]
        by_cases h3 : k' = k
        · simp [h3]
        · simp [h3]
      · simp only [mapStore, if_neg h1, if_neg h2, mapLookup, ih]
        by_cases h3 : k' = a
        · subst h3
          simp [Ne.symm h2]
        · simp [h3]

theorem mem_mapStore {p : String × SignalValue} {k : String} {v : SignalValue} :
    ∀ {m : IOSignalInfo}, p ∈ mapStore k v m → p = (k, v) ∨ p ∈ m := by
  intro m
  induction m with
  | nil =>
    intro h
    simp [mapStore] at h
    exact Or.inl h
  | cons q rest ih =>
    obtain ⟨a, w⟩ := q
    intro h
    by_cases h1 : strLt k a = true
    · simp only [mapStore, if_pos h1] at h
      rcases List.mem_cons.1 h with h' | h'
      · exact Or.inl h'
      · exact Or.inr h'
    · by_cases h2 : k = a
      · subst h2
        simp only [mapStore, if_neg h1, if_pos rfl] at h
        rcases List.mem_cons.1 h with h' | h'
        · exact Or.inl h'
        · exact Or.inr (List.mem_cons_of_mem _ h')
      · simp only [mapStore, if_neg h1, if_neg h2] at h
        rcases List.mem_cons.1 h with h' | h'
        · exact Or.inr (List.mem_cons.2 (Or.inl h'))
        · rcases ih h' with h'' | h''
          · exact Or.inl h''
          · exact Or.inr (List.mem_cons_of_mem _ h'')

theorem pairwise_mapStore (k : String) (v : SignalValue) :
    ∀ {m : IOSignalInfo}, List.Pairwise entryLt m →
      List.Pairwise entryLt (mapStore k v m) := by
  intro m
  induction m with
  | nil =>
    intro _
    simp [mapStore]
  | cons q rest ih =>
    obtain ⟨a, w⟩ := q
    intro h
    rcases List.pairwise_cons.1 h with ⟨ha, hrest⟩
    by_cases h1 : strLt k a = true
    · rw [mapStore, if_pos h1]
      refine List.pairwise_cons.2 ⟨?_, h⟩
      intro q hq
      rcases List.mem_cons.1 hq with rfl | hq'
      · exact h1
      · exact strLt_trans h1 (ha q hq')
    · by_cases h2 : k = a
      · subst h2
        rw [mapStore, if_neg h1, if_pos rfl]
        exact List.pairwise_cons.2 ⟨ha, hrest⟩
      · rw [mapStore, if_neg h1, if_neg h2]
        refine List.pairwise_cons.2 ⟨?_, ih hrest⟩
        intro q hq
        rcases mem_mapStore hq with rfl | hq'
        · rcases strLt_trichotomy h2 with hk | hk
          · exact absurd hk h1
          · exact hk
        · exact ha q hq'

theorem pairwise_buildIOSignalInfo_aux :
    ∀ (entries : List (String × SignalValue)) (m : IOSignalInfo),
      List.Pairwise entryLt m →
      List.Pairwise entryLt
        (entries.foldl (fun m p => mapStore p.1 p.2 m) m) := by
  intro entries
  induction entries with
  | nil => exact fun m h => h
  | cons p rest ih =>
    intro m h
    exact ih (mapStore p.1 p.2 m) (pairwise_mapStore p.1 p.2 h)

theorem pairwise_buildIOSignalInfo (entries : List (String × SignalValue)) :
    List.Pairwise entryLt (buildIOSignalInfo entries) :=
  pairwise_buildIOSignalInfo_aux entries [] List.Pairwise.nil

theorem nodup_keys_of_pairwise {m : IOSignalInfo}
    (h : List.Pairwise entryLt m) : (m.map Prod.fst).Nodup := by
  show List.Pairwise (fun a b => a ≠ b) (m.map Prod.fst)
  rw [List.pairwise_map]
  exact h.imp (fun hlt => strLt_ne hlt)

theorem mapLookup_foldl_mapStore :
    ∀ (entries : List (String × SignalValue)) (m : IOSignalInfo) (k : String),
      mapLookup k (entries.foldl (fun m p => mapStore p.1 p.2 m) m)
        = match lastValue k entries with
          | some v => some v
          | none => mapLookup k m := by
  intro entries
  induction entries with
  | nil =>
    intro m k
    simp [lastValue]
  | cons p rest ih =>
    intro m k
    rw [List.foldl_cons, ih]
    cases hlv : lastValue k rest with
    | some v => simp [lastValue, hlv]
    | none =>
      by_cases hk : k = p.1
      · subst hk
        simp [lastValue, hlv, mapLookup_mapStore]
      · simp only [lastValue, hlv, mapLookup_mapStore]
        rw [if_neg hk, if_neg (fun h => hk (Eq.symm h))]

end abb.rws

namespace abb.rws

/-! ### Synchronization-layer operations modelled from the spec -/

/-- Modelled from the spec: the string-to-enum conversion performed by the
response parser is not under `src/`.  Per §4.1 every known raw string maps to
exactly one member and any unrecognized string maps to the fallback member
`UNKNOWN`; the §8 scenario fixes that raw `"started"` parses to `STARTED`. -/
def RAPIDTaskExecutionState.fromRawString (s : String) : RAPIDTaskExecutionState :=
  if s = "ready" then RAPIDTaskExecutionState.READY
  else if s = "stopped" then RAPIDTaskExecutionState.STOPPED
  else if s = "started" then RAPIDTaskExecutionState.STARTED
  else if s = "uninitialized" then RAPIDTaskExecutionState.UNINITIALIZED
  else RAPIDTaskExecutionState.UNKNOWN

/-- The raw strings `RAPIDTaskExecutionState.fromRawString` recognizes. -/
def RAPIDTaskExecutionState.knownRawStrings : List String :=
  ["ready", "stopped", "started", "uninitialized"]

/-- Modelled from the spec: parser conversion for `MechanicalUnitType`,
not under `src/`.  Unrecognized strings fall back to `UNDEFINED` (§4.1),
the designated not-resolvable member. -/
def MechanicalUnitType.fromRawString (s : String) : MechanicalUnitType :=
  if s = "NONE" then MechanicalUnitType.NONE
  else if s = "TCP_ROBOT" then MechanicalUnitType.TCP_ROBOT
  else if s = "ROBOT" then MechanicalUnitType.ROBOT
  else if s = "SINGLE" then MechanicalUnitType.SINGLE
  else MechanicalUnitType.UNDEFINED

/-- The raw strings `MechanicalUnitType.fromRawString` recognizes. -/
def MechanicalUnitType.knownRawStrings : List String :=
  ["NONE", "TCP_ROBOT", "ROBOT", "SINGLE"]

/-- Modelled from the spec: parser conversion for `MechanicalUnitMode`,
not under `src/`.  Unrecognized strings fall back to `UNKNOWN_MODE` (§4.1). -/
def MechanicalUnitMode.fromRawString (s : String) : MechanicalUnitMode :=
  if s = "ACTIVATED" then MechanicalUnitMode.ACTIVATED
  else if s = "DEACTIVATED" then MechanicalUnitMode.DEACTIVATED
  else MechanicalUnitMode.UNKNOWN_MODE

/-- The raw strings `MechanicalUnitMode.fromRawString` recognizes. -/
def MechanicalUnitMode.knownRawStrings : List String :=
  ["ACTIVATED", "DEACTIVATED"]

/-- Aggregate-construction error vocabulary of the spec's §7. -/
inductive AggregateError where
  | PartialAggregateFailure
deriving DecidableEq, Repr

/-- Modelled from the spec: the synchronization layer's assembly of a
`StaticInfo` aggregate is not under `src/`.  Per §4.4 and §7, the task-list
query outcome and the system-info query outcome of one query round (each
`none` when the query failed) combine into a whole `StaticInfo` only when
both succeeded; otherwise the whole construction fails with
`PartialAggregateFailure` and no instance is produced. -/
def makeStaticInfo :
    Option (List RAPIDTaskInfo) → Option SystemInfo → Except AggregateError StaticInfo
  | some tasks, some sys => Except.ok { rapid_tasks := tasks, system_info := sys }
  | some _, none => Except.error AggregateError.PartialAggregateFailure
  | none, some _ => Except.error AggregateError.PartialAggregateFailure
  | none, none => Except.error AggregateError.PartialAggregateFailure

end abb.rws

namespace abb.rws

/-! ### Theorems -/

/-- C8: each enumerated state type is a closed set with exactly the listed
members: `RAPIDTaskExecutionState` has exactly
{UNKNOWN, READY, STOPPED, STARTED, UNINITIALIZED}, `MechanicalUnitType` has
exactly {NONE, TCP_ROBOT, ROBOT, SINGLE, UNDEFINED} with `UNDEFINED` distinct
from `NONE`, and `MechanicalUnitMode` has exactly
{UNKNOWN_MODE, ACTIVATED, DEACTIVATED}; the listed members are pairwise
distinct, so no two names alias one value and no further value exists. -/
theorem c8_enumerations_closed :
    (∀ s : RAPIDTaskExecutionState,
      s ∈ [RAPIDTaskExecutionState.UNKNOWN, RAPIDTaskExecutionState.READY,
           RAPIDTaskExecutionState.STOPPED, RAPIDTaskExecutionState.STARTED,
           RAPIDTaskExecutionState.UNINITIALIZED])
    ∧ ([RAPIDTaskExecutionState.UNKNOWN, RAPIDTaskExecutionState.READY,
        RAPIDTaskExecutionState.STOPPED, RAPIDTaskExecutionState.STARTED,
        RAPIDTaskExecutionState.UNINITIALIZED] : List RAPIDTaskExecutionState).Nodup
    ∧ (∀ t : MechanicalUnitType,
      t ∈ [MechanicalUnitType.NONE, MechanicalUnitType.TCP_ROBOT,
           MechanicalUnitType.ROBOT, MechanicalUnitType.SINGLE,
           MechanicalUnitType.UNDEFINED])
    ∧ ([MechanicalUnitType.NONE, MechanicalUnitType.TCP_ROBOT,
        MechanicalUnitType.ROBOT, MechanicalUnitType.SINGLE,
        MechanicalUnitType.UNDEFINED] : List MechanicalUnitType).Nodup
    ∧ MechanicalUnitType.UNDEFINED ≠ MechanicalUnitType.NONE
    ∧ (∀ m : MechanicalUnitMode,
      m ∈ [MechanicalUnitMode.UNKNOWN_MODE, MechanicalUnitMode.ACTIVATED,
           MechanicalUnitMode.DEACTIVATED])
    ∧ ([MechanicalUnitMode.UNKNOWN_MODE, MechanicalUnitMode.ACTIVATED,
        MechanicalUnitMode.DEACTIVATED] : List MechanicalUnitMode).Nodup := by
  refine ⟨?_, by decide, ?_, by decide, by decide, ?_, by decide⟩
  · intro s; cases s <;> simp
  · intro t; cases t <;> simp
  · intro m; cases m <;> simp

/-- C2: equality of `RAPIDTaskInfo` (and likewise of the other per-entity
records, here `RobotWareOptionInfo`) is structural: two instances are equal
exactly when all their fields are equal; in particular two instances built
from identical fields are equal and two differing only in `is_active` are
not. -/
theorem c2_structural_equality :
    (∀ (n n' : String) (m m' a a' : Bool) (e e' : RAPIDTaskExecutionState),
      (RAPIDTaskInfo.mk n m a e = RAPIDTaskInfo.mk n' m' a' e')
        ↔ (n = n' ∧ m = m' ∧ a = a' ∧ e = e'))
    ∧ (∀ (n n' d d' : String),
      (RobotWareOptionInfo.mk n d = RobotWareOptionInfo.mk n' d')
        ↔ (n = n' ∧ d = d'))
    ∧ RAPIDTaskInfo.mk "task1" true true RAPIDTaskExecutionState.STARTED
        ≠ RAPIDTaskInfo.mk "task1" true false RAPIDTaskExecutionState.STARTED := by
  refine ⟨?_, ?_, by simp⟩
  · intro n n' m m' a a' e e'
    constructor
    · intro h; injection h with h1 h2 h3 h4; exact ⟨h1, h2, h3, h4⟩
    · rintro ⟨rfl, rfl, rfl, rfl⟩; rfl
  · intro n n' d d'
    constructor
    · intro h; injection h with h1 h2; exact ⟨h1, h2⟩
    · rintro ⟨rfl, rfl⟩; rfl

/-- C5: constructing a `RAPIDTaskInfo` and reading back each field returns
the exact input value, and the §8 scenario holds: raw input
`{name: "task1", is_motion_task: true, is_active: true,
execution_state: "started"}` yields
`RAPIDTaskInfo{name="task1", is_motion_task=true, is_active=true,
execution_state=STARTED}`. -/
theorem c5_constructor_round_trip :
    (∀ (n : String) (m a : Bool) (e : RAPIDTaskExecutionState),
      (RAPIDTaskInfo.mk n m a e).name = n
      ∧ (RAPIDTaskInfo.mk n m a e).is_motion_task = m
      ∧ (RAPIDTaskInfo.mk n m a e).is_active = a
      ∧ (RAPIDTaskInfo.mk n m a e).execution_state = e)
    ∧ RAPIDTaskInfo.mk "task1" true true
        (RAPIDTaskExecutionState.fromRawString "started")
      = RAPIDTaskInfo.mk "task1" true true RAPIDTaskExecutionState.STARTED := by
  refine ⟨fun n m a e => ⟨rfl, rfl, rfl, rfl⟩, by decide⟩

/-- C1: a stored signal value holds either the boolean or the floating-point
alternative, never both; reading with the matching discriminant returns the
stored payload, and reading with the mismatched discriminant yields
`TypeMismatch` instead of a coerced value. -/
theorem c1_signal_value_discriminant :
    (∀ b : Bool,
      SignalValue.getDigital (SignalValue.vbool b) = Except.ok b
      ∧ SignalValue.getAnalog (SignalValue.vbool b)
          = Except.error RWSError.TypeMismatch)
    ∧ (∀ x : Rat,
      SignalValue.getAnalog (SignalValue.vfloat x) = Except.ok x
      ∧ SignalValue.getDigital (SignalValue.vfloat x)
          = Except.error RWSError.TypeMismatch)
    ∧ (∀ v : SignalValue,
      (Except.isOk (SignalValue.getDigital v) = true)
        ↔ ¬ (Except.isOk (SignalValue.getAnalog v) = true)) := by
  refine ⟨fun b => ⟨rfl, rfl⟩, fun x => ⟨rfl, rfl⟩, fun v => ?_⟩
  cases v <;> simp [SignalValue.getDigital, SignalValue.getAnalog, Except.isOk,
    Except.toBool]

/-- C3: string-to-enum conversion is total for each enum-valued field: each
known raw string maps to exactly one member, and every string outside the
known set maps to the designated fallback member (`UNKNOWN`, `UNDEFINED`,
`UNKNOWN_MODE`) instead of failing. -/
theorem c3_enum_parsing_total :
    (RAPIDTaskExecutionState.fromRawString "ready" = RAPIDTaskExecutionState.READY
      ∧ RAPIDTaskExecutionState.fromRawString "stopped" = RAPIDTaskExecutionState.STOPPED
      ∧ RAPIDTaskExecutionState.fromRawString "started" = RAPIDTaskExecutionState.STARTED
      ∧ RAPIDTaskExecutionState.fromRawString "uninitialized"
          = RAPIDTaskExecutionState.UNINITIALIZED)
    ∧ (∀ s : String, s ∉ RAPIDTaskExecutionState.knownRawStrings →
        RAPIDTaskExecutionState.fromRawString s = RAPIDTaskExecutionState.UNKNOWN)
    ∧ (MechanicalUnitType.fromRawString "NONE" = MechanicalUnitType.NONE
      ∧ MechanicalUnitType.fromRawString "TCP_ROBOT" = MechanicalUnitType.TCP_ROBOT
      ∧ MechanicalUnitType.fromRawString "ROBOT" = MechanicalUnitType.ROBOT
      ∧ MechanicalUnitType.fromRawString "SINGLE" = MechanicalUnitType.SINGLE)
    ∧ (∀ s : String, s ∉ MechanicalUnitType.knownRawStrings →
        MechanicalUnitType.fromRawString s = MechanicalUnitType.UNDEFINED)
    ∧ (MechanicalUnitMode.fromRawString "ACTIVATED" = MechanicalUnitMode.ACTIVATED
      ∧ MechanicalUnitMode.fromRawString "DEACTIVATED" = MechanicalUnitMode.DEACTIVATED)
    ∧ (∀ s : String, s ∉ MechanicalUnitMode.knownRawStrings →
        MechanicalUnitMode.fromRawString s = MechanicalUnitMode.UNKNOWN_MODE) := by
  refine ⟨by decide, ?_, by decide, ?_, by decide, ?_⟩
  · intro s hs
    simp only [RAPIDTaskExecutionState.knownRawStrings, List.mem_cons,
      List.not_mem_nil, or_false, not_or] at hs
    obtain ⟨h1, h2, h3, h4⟩ := hs
    simp [RAPIDTaskExecutionState.fromRawString, h1, h2, h3, h4]
  · intro s hs
    simp only [MechanicalUnitType.knownRawStrings, List.mem_cons,
      List.not_mem_nil, or_false, not_or] at hs
    obtain ⟨h1, h2, h3, h4⟩ := hs
    simp [MechanicalUnitType.fromRawString, h1, h2, h3, h4]
  · intro s hs
    simp only [MechanicalUnitMode.knownRawStrings, List.mem_cons,
      List.not_mem_nil, or_false, not_or] at hs
    obtain ⟨h1, h2⟩ := hs
    simp [MechanicalUnitMode.fromRawString, h1, h2]

/-- Concrete instantiation of the fallback clauses of
`c3_enum_parsing_total` at the unrecognized raw string `"mystery"`. -/
theorem c3_enum_parsing_total_witness :
    ("mystery" ∉ RAPIDTaskExecutionState.knownRawStrings
      ∧ RAPIDTaskExecutionState.fromRawString "mystery"
          = RAPIDTaskExecutionState.UNKNOWN)
    ∧ ("mystery" ∉ MechanicalUnitType.knownRawStrings
      ∧ MechanicalUnitType.fromRawString "mystery" = MechanicalUnitType.UNDEFINED)
    ∧ ("mystery" ∉ MechanicalUnitMode.knownRawStrings
      ∧ MechanicalUnitMode.fromRawString "mystery"
          = MechanicalUnitMode.UNKNOWN_MODE) :=
  ⟨⟨by decide, c3_enum_parsing_total.2.1 "mystery" (by decide)⟩,
   ⟨by decide, c3_enum_parsing_total.2.2.2.1 "mystery" (by decide)⟩,
   ⟨by decide, c3_enum_parsing_total.2.2.2.2.2 "mystery" (by decide)⟩⟩

/-- C4 counterexample: the claim says no default or empty instance of the
per-entity records can be produced, but `SystemInfo` and
`MechanicalUnitStaticInfo` have no user-declared constructor, so C++
value-initialization (`SystemInfo{}`, `MechanicalUnitStaticInfo{}`) produces
an instance whose every field is the empty/zero/first-enumerator
placeholder. -/
theorem c4_value_initialized_empty_instance :
    SystemInfo.valueInit.robot_ware_version = ""
    ∧ SystemInfo.valueInit.system_name = ""
    ∧ SystemInfo.valueInit.system_type = ""
    ∧ SystemInfo.valueInit.system_options = []
    ∧ MechanicalUnitStaticInfo.valueInit.type = MechanicalUnitType.NONE
    ∧ MechanicalUnitStaticInfo.valueInit.task_name = ""
    ∧ MechanicalUnitStaticInfo.valueInit.axes = 0
    ∧ MechanicalUnitStaticInfo.valueInit.axes_total = 0
    ∧ MechanicalUnitStaticInfo.valueInit.is_integrated_unit = ""
    ∧ MechanicalUnitStaticInfo.valueInit.has_integrated_unit = "" :=
  ⟨rfl, rfl, rfl, rfl, rfl, rfl, rfl, rfl, rfl, rfl⟩

/-- C4 (amended): the records with user-declared constructors
(`RobotWareOptionInfo`, `RAPIDModuleInfo`, `RAPIDTaskInfo`) require all
fields at construction and record exactly the supplied values; the plain
aggregate records (`MechanicalUnitStaticInfo`, `MechanicalUnitDynamicInfo`,
`SystemInfo`) are value-initializable, which yields the instance with
empty/zero/first-enumerator fields. -/
theorem c4_construction_requires_all_fields :
    (∀ n d : String,
      (RobotWareOptionInfo.mk n d).name = n
      ∧ (RobotWareOptionInfo.mk n d).description = d)
    ∧ (∀ n t : String,
      (RAPIDModuleInfo.mk n t).name = n ∧ (RAPIDModuleInfo.mk n t).type = t)
    ∧ (∀ (n : String) (m a : Bool) (e : RAPIDTaskExecutionState),
      (RAPIDTaskInfo.mk n m a e).name = n
      ∧ (RAPIDTaskInfo.mk n m a e).is_motion_task = m
      ∧ (RAPIDTaskInfo.mk n m a e).is_active = a
      ∧ (RAPIDTaskInfo.mk n m a e).execution_state = e)
    ∧ SystemInfo.valueInit = SystemInfo.mk "" "" "" []
    ∧ MechanicalUnitStaticInfo.valueInit
        = MechanicalUnitStaticInfo.mk MechanicalUnitType.NONE "" 0 0 "" ""
    ∧ MechanicalUnitDynamicInfo.valueInit
        = MechanicalUnitDynamicInfo.mk "" "" "" "" ""
            MechanicalUnitMode.UNKNOWN_MODE "" Coordinate.FIRST_ENUMERATOR :=
  ⟨fun _ _ => ⟨rfl, rfl⟩, fun _ _ => ⟨rfl, rfl⟩,
   fun _ _ _ _ => ⟨rfl, rfl, rfl, rfl⟩, rfl, rfl, rfl⟩

/-- C6: building an `IOSignalInfo` from any input sequence, duplicate names
included, yields a map whose value at each name is the value of the last
occurrence of that name in the sequence, and whose keys are pairwise
distinct (exactly one entry per distinct name). -/
theorem c6_build_last_occurrence_wins :
    ∀ entries : List (String × SignalValue),
      (∀ k : String,
        mapLookup k (buildIOSignalInfo entries) = lastValue k entries)
      ∧ ((buildIOSignalInfo entries).map Prod.fst).Nodup := by
  intro entries
  constructor
  · intro k
    unfold buildIOSignalInfo
    rw [mapLookup_foldl_mapStore]
    cases hl : lastValue k entries with
    | some v => rfl
    | none => rfl
  · exact nodup_keys_of_pairwise (pairwise_buildIOSignalInfo entries)

/-- C7: `StaticInfo` assembly is atomic: when both the task-list query and
the system-info query of one round succeed, the aggregate holds exactly
those two results; when either query fails, the whole construction fails
with `PartialAggregateFailure` and no `StaticInfo` is produced. -/
theorem c7_static_info_atomic :
    ∀ (tasks : List RAPIDTaskInfo) (sys : SystemInfo),
      makeStaticInfo (some tasks) (some sys) = Except.ok (StaticInfo.mk tasks sys)
      ∧ makeStaticInfo (some tasks) none
          = Except.error AggregateError.PartialAggregateFailure
      ∧ makeStaticInfo none (some sys)
          = Except.error AggregateError.PartialAggregateFailure
      ∧ makeStaticInfo none none
          = Except.error AggregateError.PartialAggregateFailure :=
  fun _ _ => ⟨rfl, rfl, rfl, rfl⟩

/-- C9: subscripting an `IOSignalInfo` with a name absent from the map does
not fail or report absence: it returns the value-initialized variant — a
digital (boolean) `false` — and inserts that entry, mutating the map. -/
theorem c9_subscript_absent_key_inserts :
    ∀ (m : IOSignalInfo) (k : String), mapLookup k m = none →
      (mapSubscript m k).1 = SignalValue.vbool false
      ∧ mapLookup k (mapSubscript m k).2 = some (SignalValue.vbool false)
      ∧ (mapSubscript m k).2 ≠ m := by
  intro m k h
  have hsub : mapSubscript m k
      = (SignalValue.valueInit, mapStore k SignalValue.valueInit m) := by
    simp [mapSubscript, h]
  refine ⟨?_, ?_, ?_⟩
  · rw [hsub]
    rfl
  · rw [hsub]
    simp [mapLookup_mapStore]
    rfl
  · rw [hsub]
    intro he
    simp only at he
    have hl := mapLookup_mapStore k k SignalValue.valueInit m
    rw [he, h] at hl
    simp at hl

/-- Concrete instantiation of `c9_subscript_absent_key_inserts` at the empty
map and the never-reported signal name `"sig"`. -/
theorem c9_subscript_absent_key_inserts_witness :
    mapLookup "sig" ([] : IOSignalInfo) = none
    ∧ ((mapSubscript ([] : IOSignalInfo) "sig").1 = SignalValue.vbool false
      ∧ mapLookup "sig" (mapSubscript ([] : IOSignalInfo) "sig").2
          = some (SignalValue.vbool false)
      ∧ (mapSubscript ([] : IOSignalInfo) "sig").2 ≠ ([] : IOSignalInfo)) :=
  ⟨rfl, c9_subscript_absent_key_inserts [] "sig" rfl⟩

/-- C10: key comparison of `IOSignalInfo` is case-sensitive byte-wise
ordering: `"DO1"` sorts strictly before `"do1"`, the two are distinct keys
holding independent values, and iteration always visits entries in strictly
ascending key order — in the concrete build below, insertion order
`do1, DO1` but iteration order `DO1, do1`. -/
theorem c10_map_case_sensitive_byte_order :
    (∀ entries : List (String × SignalValue),
      List.Pairwise entryLt (buildIOSignalInfo entries))
    ∧ strLt "DO1" "do1" = true
    ∧ buildIOSignalInfo
        [("do1", SignalValue.vbool true), ("DO1", SignalValue.vfloat (Rat.mk' 7 2))]
        = [("DO1", SignalValue.vfloat (Rat.mk' 7 2)), ("do1", SignalValue.vbool true)]
    ∧ mapLookup "do1"
        (buildIOSignalInfo
          [("do1", SignalValue.vbool true), ("DO1", SignalValue.vfloat (Rat.mk' 7 2))])
        = some (SignalValue.vbool true)
    ∧ mapLookup "DO1"
        (buildIOSignalInfo
          [("do1", SignalValue.vbool true), ("DO1", SignalValue.vfloat (Rat.mk' 7 2))])
        = some (SignalValue.vfloat (Rat.mk' 7 2)) := by
  exact ⟨pairwise_buildIOSignalInfo, by decide, by decide, by decide, by decide⟩

end abb.rws
